import Mathlib

/-!
Verification of the speedforce tunnel (tunnel-protocol, tunnel-server,
tunnel-client) against its specification.  Bytes are modelled as `Nat`
(values < 256 where produced by the code), byte streams as `List Nat`,
and fallible I/O as `Option`/`Except`.
-/

namespace Speedforce

/-! ## tunnel-protocol: length-prefixed frames (`src/tunnel-protocol/src/lib.rs`) -/

/-- Big-endian 4-byte encoding of `n`, as produced by `u32::to_be_bytes`.
Faithful for `n < 2^32`, which holds at the call site in `write_frame`
because the length is first truncated by `as u32`. -/
def toBE32 (n : Nat) : List Nat :=
  [n / 2 ^ 24 % 256, n / 2 ^ 16 % 256, n / 2 ^ 8 % 256, n % 256]

/-- `u32::from_be_bytes` on four bytes. -/
def fromBE32 (b0 b1 b2 b3 : Nat) : Nat :=
  b0 * 2 ^ 24 + b1 * 2 ^ 16 + b2 * 2 ^ 8 + b3

/-- `write_frame` (lib.rs lines 51-60): writes `(payload.len() as u32)`
big-endian, then the whole payload.  The result is the byte sequence put
on the wire; `as u32` is truncation mod `2^32`. -/
def write_frame (payload : List Nat) : List Nat :=
  toBE32 (payload.length % 2 ^ 32) ++ payload

/-- `read_frame` (lib.rs lines 72-82): reads exactly 4 bytes, interprets a
big-endian u32 length `L`, then reads exactly `L` bytes.  `none` models the
io error when the stream ends early (`read_exact` failing). -/
def read_frame (s : List Nat) : Option (List Nat × List Nat) :=
  match s with
  | b0 :: b1 :: b2 :: b3 :: rest =>
    let len := fromBE32 b0 b1 b2 b3
    if len ≤ rest.length then some (rest.take len, rest.drop len) else none
  | _ => none

/-- `n` sequential `read_frame` calls on stream `s`. -/
def readFrames : Nat → List Nat → Option (List (List Nat) × List Nat)
  | 0, s => some ([], s)
  | n + 1, s =>
    (read_frame s).bind fun fr =>
      (readFrames n fr.2).bind fun rs => some (fr.1 :: rs.1, rs.2)

/-- Concatenation of the wire encodings of a list of frames. -/
def writeFrames (fs : List (List Nat)) : List Nat :=
  match fs with
  | [] => []
  | f :: rest => write_frame f ++ writeFrames rest

theorem fromBE32_toBE32 (n : Nat) (h : n < 2 ^ 32) :
    fromBE32 (n / 2 ^ 24 % 256) (n / 2 ^ 16 % 256) (n / 2 ^ 8 % 256) (n % 256) = n := by
  unfold fromBE32
  omega

theorem read_frame_cons (b0 b1 b2 b3 : Nat) (rest : List Nat) :
    read_frame (b0 :: b1 :: b2 :: b3 :: rest)
      = if fromBE32 b0 b1 b2 b3 ≤ rest.length
        then some (rest.take (fromBE32 b0 b1 b2 b3), rest.drop (fromBE32 b0 b1 b2 b3))
        else none := rfl

theorem read_frame_write_frame (F rest : List Nat) (h : F.length < 2 ^ 32) :
    read_frame (write_frame F ++ rest) = some (F, rest) := by
  have hmod : F.length % 2 ^ 32 = F.length := Nat.mod_eq_of_lt h
  have hw : write_frame F ++ rest
      = F.length / 2 ^ 24 % 256 :: F.length / 2 ^ 16 % 256 :: F.length / 2 ^ 8 % 256
          :: F.length % 256 :: (F ++ rest) := by
    unfold write_frame toBE32
    rw [hmod]
    rfl
  rw [hw, read_frame_cons, fromBE32_toBE32 F.length h]
  have hle : F.length ≤ (F ++ rest).length := by
    rw [List.length_append]; omega
  rw [if_pos hle, List.take_left, List.drop_left]

theorem readFrames_writeFrames (fs : List (List Nat)) (rest : List Nat)
    (h : ∀ f ∈ fs, f.length < 2 ^ 32) :
    readFrames fs.length (writeFrames fs ++ rest) = some (fs, rest) := by
  induction fs with
  | nil => rfl
  | cons f fs ih =>
    have hf : f.length < 2 ^ 32 := h f (List.mem_cons_self f fs)
    have hfs : ∀ g ∈ fs, g.length < 2 ^ 32 := fun g hg => h g (List.mem_cons_of_mem f hg)
    show readFrames (fs.length + 1) ((write_frame f ++ writeFrames fs) ++ rest) = _
    rw [List.append_assoc]
    simp only [readFrames, read_frame_write_frame f (writeFrames fs ++ rest) hf,
      Option.some_bind, ih hfs]

/-- C6: for every valid frame payload `F` (length below `2^32`), reading a
frame from the bytes produced by writing `F` yields exactly `F` and consumes
exactly the frame; and sequential reads on a concatenation of frames
`F1..Fn` yield `F1..Fn` in order. -/
theorem frame_roundtrip :
    (∀ F rest : List Nat, F.length < 2 ^ 32 →
      read_frame (write_frame F ++ rest) = some (F, rest)) ∧
    (∀ fs : List (List Nat), ∀ rest : List Nat, (∀ f ∈ fs, f.length < 2 ^ 32) →
      readFrames fs.length (writeFrames fs ++ rest) = some (fs, rest)) :=
  ⟨read_frame_write_frame, readFrames_writeFrames⟩

/-- Witness for C6 at concrete inputs: a single frame `[1,2,3]` followed by
trailing bytes, and the stream of the two frames `[1]` and `[2,3]`. -/
theorem frame_roundtrip_witness :
    read_frame (write_frame [1, 2, 3] ++ [9]) = some ([1, 2, 3], [9]) ∧
    readFrames 2 (writeFrames [[1], [2, 3]] ++ []) = some ([[1], [2, 3]], []) :=
  ⟨frame_roundtrip.1 [1, 2, 3] [9] (by decide),
   frame_roundtrip.2 [[1], [2, 3]] [] (by decide)⟩

/-- C9: `write_frame` computes the 4-byte prefix from the payload length
truncated to 32 bits while still writing the entire payload: the emitted
bytes are the big-endian encoding of `len % 2^32` followed by the whole
payload, and the value encoded in the prefix equals the payload length
exactly when the length is below `2^32`. -/
theorem write_frame_prefix_truncation (payload : List Nat) :
    write_frame payload = toBE32 (payload.length % 2 ^ 32) ++ payload ∧
    (write_frame payload).drop 4 = payload ∧
    ∀ b0 b1 b2 b3, (write_frame payload).take 4 = [b0, b1, b2, b3] →
      (fromBE32 b0 b1 b2 b3 = payload.length ↔ payload.length < 2 ^ 32) := by
  refine ⟨rfl, ?_, ?_⟩
  · show (toBE32 _ ++ payload).drop 4 = payload
    rfl
  · intro b0 b1 b2 b3 htake
    have htake4 : (write_frame payload).take 4 = toBE32 (payload.length % 2 ^ 32) := by
      show (toBE32 _ ++ payload).take 4 = toBE32 (payload.length % 2 ^ 32)
      rfl
    rw [htake4] at htake
    unfold toBE32 at htake
    have hb0 : b0 = payload.length % 2 ^ 32 / 2 ^ 24 % 256 := by
      simpa using congrArg (fun l => l.headI) htake.symm
    have hb1 : b1 = payload.length % 2 ^ 32 / 2 ^ 16 % 256 := by
      simpa using congrArg (fun l => (l.drop 1).headI) htake.symm
    have hb2 : b2 = payload.length % 2 ^ 32 / 2 ^ 8 % 256 := by
      simpa using congrArg (fun l => (l.drop 2).headI) htake.symm
    have hb3 : b3 = payload.length % 2 ^ 32 % 256 := by
      simpa using congrArg (fun l => (l.drop 3).headI) htake.symm
    subst hb0 hb1 hb2 hb3
    rw [fromBE32_toBE32 (payload.length % 2 ^ 32) (Nat.mod_lt _ (by norm_num))]
    constructor
    · intro h
      calc payload.length = payload.length % 2 ^ 32 := h.symm
        _ < 2 ^ 32 := Nat.mod_lt _ (by norm_num)
    · exact Nat.mod_eq_of_lt

/-- Witness for C9 at the concrete payload `[7, 8]`: its wire prefix is
`[0, 0, 0, 2]` and the prefix value `2` equals the payload length. -/
theorem write_frame_prefix_truncation_witness :
    fromBE32 0 0 0 2 = ([7, 8] : List Nat).length ↔ ([7, 8] : List Nat).length < 2 ^ 32 :=
  (write_frame_prefix_truncation [7, 8]).2.2 0 0 0 2 (by decide)

/-! ## tunnel-protocol: base64 body encoding (`encode_body` / `decode_body`)

The source delegates to the `base64` crate's `STANDARD` engine
(alphabet `A-Z a-z 0-9 + /`, canonical `=` padding required on decode,
nonzero trailing bits rejected).  The engine is modelled here byte for
byte. -/

/-- 6-bit value of a base64 STANDARD alphabet character. -/
def b64CharVal (c : Char) : Option Nat :=
  if 'A' ≤ c ∧ c ≤ 'Z' then some (c.toNat - 65)
  else if 'a' ≤ c ∧ c ≤ 'z' then some (c.toNat - 71)
  else if '0' ≤ c ∧ c ≤ '9' then some (c.toNat + 4)
  else if c = '+' then some 62
  else if c = '/' then some 63
  else none

/-- Base64 STANDARD alphabet character for a 6-bit value. -/
def b64Char (v : Nat) : Char :=
  if v < 26 then Char.ofNat (65 + v)
  else if v < 52 then Char.ofNat (97 + (v - 26))
  else if v < 62 then Char.ofNat (48 + (v - 52))
  else if v = 62 then '+'
  else '/'

/-- Base64 encoding of a byte list, three bytes to four characters, with
`=` padding on the final partial group. -/
def b64EncodeList : List Nat → List Char
  | [] => []
  | [b0] => [b64Char (b0 / 4), b64Char (b0 % 4 * 16), '=', '=']
  | [b0, b1] => [b64Char (b0 / 4), b64Char (b0 % 4 * 16 + b1 / 16), b64Char (b1 % 16 * 4), '=']
  | b0 :: b1 :: b2 :: rest =>
    b64Char (b0 / 4) :: b64Char (b0 % 4 * 16 + b1 / 16) :: b64Char (b1 % 16 * 4 + b2 / 64)
      :: b64Char (b2 % 64) :: b64EncodeList rest

/-- `encode_body` (lib.rs lines 91-94): base64 STANDARD encoding. -/
def encode_body (bodyBytes : List Nat) : String :=
  String.mk (b64EncodeList bodyBytes)

/-- Base64 decoding of a character list in four-character groups.  `=` is
accepted only as canonical padding at the end of the final group, and the
unused low bits of the last data character must be zero, as in the
STANDARD engine. -/
def b64DecodeList : List Char → Except String (List Nat)
  | [] => Except.ok []
  | c0 :: c1 :: c2 :: c3 :: rest =>
    match b64CharVal c0, b64CharVal c1 with
    | some v0, some v1 =>
      if c2 = '=' then
        if c3 = '=' ∧ rest = [] ∧ v1 % 16 = 0 then Except.ok [v0 * 4 + v1 / 16]
        else Except.error "InvalidPadding"
      else
        match b64CharVal c2 with
        | some v2 =>
          if c3 = '=' then
            if rest = [] ∧ v2 % 4 = 0 then
              Except.ok [v0 * 4 + v1 / 16, v1 % 16 * 16 + v2 / 4]
            else Except.error "InvalidPadding"
          else
            match b64CharVal c3 with
            | some v3 =>
              match b64DecodeList rest with
              | Except.ok bs =>
                Except.ok ((v0 * 4 + v1 / 16) :: (v1 % 16 * 16 + v2 / 4) :: (v2 % 4 * 64 + v3) :: bs)
              | Except.error e => Except.error e
            | none => Except.error "InvalidByte"
        | none => Except.error "InvalidByte"
    | _, _ => Except.error "InvalidByte"
  | _ => Except.error "InvalidLength"

/-- `decode_body` (lib.rs lines 104-107): base64 STANDARD decode. -/
def decode_body (encoded : String) : Except String (List Nat) :=
  b64DecodeList encoded.data

/-- UTF-8 bytes of a string (`str::as_bytes`), modelled as the character
code points: identical to the UTF-8 bytes for ASCII strings, which covers
every string the code passes here. -/
def strBytes (s : String) : List Nat :=
  s.data.map Char.toNat

/-! ## tunnel-protocol: the JSON-carried messages -/

/-- `TunnelRequest` (lib.rs lines 10-22). -/
structure TunnelRequest where
  method : String
  path : String
  headers : List (String × String)
  body : String
deriving DecidableEq

/-- `TunnelResponse` (lib.rs lines 29-38). -/
structure TunnelResponse where
  status : Nat
  headers : List (String × String)
  body : String
deriving DecidableEq

/-! ## Header marshaling (server `forward_request`, client `process_request`)

Both binaries turn a hyper `HeaderMap` into `Vec<(String, String)>` with
`value.to_str().unwrap_or("")`.  `HeaderValue::to_str` of the http crate
succeeds iff every byte of the value is visible ASCII (32..126) or
horizontal tab; header values are therefore modelled as raw byte lists. -/

/-- Byte acceptable to `HeaderValue::to_str`. -/
def isVisibleAscii (b : Nat) : Bool :=
  b == 9 || (32 ≤ b && b < 127)

/-- `HeaderValue::to_str` of the http crate: `some` iff all bytes are
visible ASCII or tab. -/
def headerValueToStr (v : List Nat) : Option String :=
  if v.all isVisibleAscii then some (String.mk (v.map Char.ofNat)) else none

/-- Shared shape of the header marshaling loops. -/
def marshalHeaders (hs : List (String × List Nat)) : List (String × String) :=
  hs.map fun nv => (nv.1, (headerValueToStr nv.2).getD "")

/-- Header extraction of `forward_request` (server main.rs lines 305-314):
`(name.as_str().to_string(), value.to_str().unwrap_or("").to_string())`. -/
def forward_request_headers (hs : List (String × List Nat)) : List (String × String) :=
  hs.map fun nv => (nv.1, (headerValueToStr nv.2).getD "")

/-- Header extraction of `process_request` (client main.rs lines 462-472),
textually the same map as the server side. -/
def process_request_headers (hs : List (String × List Nat)) : List (String × String) :=
  hs.map fun nv => (nv.1, (headerValueToStr nv.2).getD "")

/-! ## tunnel-client: `process_request` and the connection loop -/

/-- Outcome of the agent's local HTTP dispatch (`req_builder.send()`
followed by `response.bytes()`), which is network I/O: modelled as an
oracle value.  `ok` carries the local status, raw response headers and the
result of reading the response body; `err` is a failed dispatch. -/
inductive LocalResult where
  | ok (status : Nat) (headers : List (String × List Nat))
      (bodyRead : Except String (List Nat))
  | err (e : String)

/-- `error_response` (client main.rs lines 497-503). -/
def error_response (message : String) : TunnelResponse :=
  TunnelResponse.mk 502 [("content-type", "text/plain")] (encode_body (strBytes message))

/-- `process_request` (client main.rs lines 423-494): decode the base64
body (on failure an in-band 502), dispatch to the local service (on
failure an in-band 502), read the local response body (on failure an
in-band 502), else marshal status, headers and base64-encoded body. -/
def process_request (tunnelReq : TunnelRequest) (lr : LocalResult) : TunnelResponse :=
  match decode_body tunnelReq.body with
  | Except.error _ => error_response "Failed to decode request body"
  | Except.ok _ =>
    match lr with
    | LocalResult.err _ => error_response "Local service unavailable"
    | LocalResult.ok status headers bodyRead =>
      match bodyRead with
      | Except.error _ => error_response "Failed to read response body"
      | Except.ok bytes =>
        TunnelResponse.mk status (process_request_headers headers) (encode_body bytes)

/-- Result of one pass of the agent's tunnel loop. -/
inductive ConnStep where
  | terminate
  | reply (resp : TunnelResponse)
deriving DecidableEq

/-- One iteration of `handle_tunnel_connection`'s loop (client main.rs
lines 383-419).  `frameRead` is the result of `read_frame` on the tunnel,
`parse` the result of `serde_json::from_slice` on the frame payload (JSON
parsing is a library call, modelled as an oracle), `local` the local
dispatch outcome.  A frame read error or a deserialization error breaks
the loop — the tunnel terminates and `main`'s reconnect loop takes over —
with no response written; otherwise the `process_request` response is
serialized and written back.  (`serde_json::to_vec` of a `TunnelResponse`
cannot fail, so the serialize-error break is not reachable and not
modelled.) -/
def handleTunnelStep (frameRead : Except String (List Nat))
    (parse : List Nat → Except String TunnelRequest) (lr : LocalResult) : ConnStep :=
  match frameRead with
  | Except.error _ => ConnStep.terminate
  | Except.ok payload =>
    match parse payload with
    | Except.error _ => ConnStep.terminate
    | Except.ok req => ConnStep.reply (process_request req lr)

/-- C8: a base64-decode failure of a received body yields an in-band 502
with body "Failed to decode request body" and a `content-type: text/plain`
header; a failed local dispatch yields an in-band 502 with body
"Local service unavailable" (same header); a JSON-decode failure of an
incoming frame terminates the tunnel loop and is never surfaced as an
HTTP response (as is a frame read error). -/
theorem agent_error_routing :
    (∀ req lr, (∃ e, decode_body req.body = Except.error e) →
      process_request req lr
        = TunnelResponse.mk 502 [("content-type", "text/plain")]
            (encode_body (strBytes "Failed to decode request body"))) ∧
    (∀ req es, (∃ bs, decode_body req.body = Except.ok bs) →
      process_request req (LocalResult.err es)
        = TunnelResponse.mk 502 [("content-type", "text/plain")]
            (encode_body (strBytes "Local service unavailable"))) ∧
    (∀ payload pe parse lr, parse payload = Except.error pe →
      handleTunnelStep (Except.ok payload) parse lr = ConnStep.terminate) ∧
    (∀ re parse lr, handleTunnelStep (Except.error re) parse lr = ConnStep.terminate) := by
  refine ⟨?_, ?_, ?_, ?_⟩
  · rintro req lr ⟨e, he⟩
    unfold process_request
    rw [he]
    rfl
  · rintro req es ⟨bs, hb⟩
    unfold process_request
    rw [hb]
    rfl
  · intro payload pe parse lr hp
    show (match parse payload with
      | Except.error _ => ConnStep.terminate
      | Except.ok req => ConnStep.reply (process_request req lr)) = ConnStep.terminate
    rw [hp]
  · intro re parse lr
    rfl

/-- Witness for C8: body `"!!!"` is invalid base64 and yields the in-band
502 decode error; body `""` decodes, and a failed dispatch yields the
in-band 502 unavailable error; a parse failure on payload `[1]`
terminates; a read failure terminates. -/
theorem agent_error_routing_witness :
    process_request (TunnelRequest.mk "GET" "/" [] "!!!") (LocalResult.err "refused")
      = TunnelResponse.mk 502 [("content-type", "text/plain")]
          (encode_body (strBytes "Failed to decode request body")) ∧
    process_request (TunnelRequest.mk "GET" "/" [] "") (LocalResult.err "refused")
      = TunnelResponse.mk 502 [("content-type", "text/plain")]
          (encode_body (strBytes "Local service unavailable")) ∧
    handleTunnelStep (Except.ok [1]) (fun _ => Except.error "bad json")
        (LocalResult.err "refused") = ConnStep.terminate ∧
    handleTunnelStep (Except.error "eof") (fun _ => Except.error "bad json")
        (LocalResult.err "refused") = ConnStep.terminate :=
  ⟨agent_error_routing.1 (TunnelRequest.mk "GET" "/" [] "!!!") (LocalResult.err "refused")
      ⟨"InvalidLength", rfl⟩,
   agent_error_routing.2.1 (TunnelRequest.mk "GET" "/" [] "") "refused" ⟨[], rfl⟩,
   agent_error_routing.2.2.1 [1] "bad json" (fun _ => Except.error "bad json")
      (LocalResult.err "refused") rfl,
   agent_error_routing.2.2.2 "eof" (fun _ => Except.error "bad json")
      (LocalResult.err "refused")⟩

/-- C10: both the server forwarder and the agent processor marshal headers
by the same total map: every header is kept (same length, same names, same
order), and a value that `HeaderValue::to_str` cannot convert is replaced
by the empty string rather than failing or dropping the header. -/
theorem header_marshal_replaces_unconvertible :
    (∀ hs, forward_request_headers hs = marshalHeaders hs) ∧
    (∀ hs, process_request_headers hs = marshalHeaders hs) ∧
    (∀ hs : List (String × List Nat), (marshalHeaders hs).length = hs.length) ∧
    (∀ (hs : List (String × List Nat)) (i : Nat),
      (marshalHeaders hs)[i]?
        = (hs[i]?).map fun nv => (nv.1, (headerValueToStr nv.2).getD "")) ∧
    (∀ (n : String) (v : List Nat) (hs : List (String × List Nat)),
      (n, v) ∈ hs → headerValueToStr v = none → (n, "") ∈ marshalHeaders hs) := by
  refine ⟨fun _ => rfl, fun _ => rfl, fun hs => List.length_map _ _, ?_, ?_⟩
  · intro hs i
    unfold marshalHeaders
    rw [List.getElem?_map]
  · intro n v hs hmem hnone
    have : ((n, v).1, (headerValueToStr (n, v).2).getD "") ∈ marshalHeaders hs :=
      List.mem_map_of_mem _ hmem
    simpa [hnone] using this

/-- Witness for C10: the header list `[("x-bin", [255]), ("accept", [42])]`
marshals pointwise, and the opaque value `[255]` becomes `("x-bin", "")`. -/
theorem header_marshal_replaces_unconvertible_witness :
    (marshalHeaders [("x-bin", [255]), ("accept", [42])])[0]?
        = some ("x-bin", (headerValueToStr [255]).getD "") ∧
    ("x-bin", "") ∈ marshalHeaders [("x-bin", [255]), ("accept", [42])] :=
  ⟨header_marshal_replaces_unconvertible.2.2.2.1 [("x-bin", [255]), ("accept", [42])] 0,
   header_marshal_replaces_unconvertible.2.2.2.2 "x-bin" [255] [("x-bin", [255]), ("accept", [42])]
      (by decide) (by decide)⟩

/-! ## tunnel-server: the worker loop (`tunnel_worker`, server main.rs 199-226) -/

/-- `TunnelWorkerRequest` (server main.rs lines 19-22): the serialized
payload and the oneshot reply channel, identified here by a channel id. -/
structure TunnelWorkerRequest where
  payload : List Nat
  chan : Nat
deriving DecidableEq

/-- `tunnel_worker` (server main.rs lines 199-226), with the tunnel I/O
modelled as oracles indexed by iteration number: `wr k` is the error of
the k-th `write_frame` call when it fails, `rd k` the result of the k-th
`read_frame` call.  Each loop pass pops one mailbox entry, writes its
payload (on error: deliver the write error on its reply channel, break),
then reads one frame (on success: deliver the bytes; on error: deliver
the read error, break).  Returns the deliveries made to reply channels in
order, and the payloads written to the tunnel in order. -/
def tunnel_worker (wr : Nat → Option String) (rd : Nat → Except String (List Nat)) :
    List TunnelWorkerRequest → Nat →
      List (Nat × Except String (List Nat)) × List (List Nat)
  | [], _ => ([], [])
  | req :: rest, k =>
    match wr k with
    | some e => ([(req.chan, Except.error ("Tunnel write failed: " ++ e))], [])
    | none =>
      match rd k with
      | Except.ok p =>
        let r := tunnel_worker wr rd rest (k + 1)
        ((req.chan, Except.ok p) :: r.1, req.payload :: r.2)
      | Except.error e =>
        ([(req.chan, Except.error ("Tunnel read failed: " ++ e))], [req.payload])

/-- The value the worker delivers for its k-th iteration. -/
def workerOutcome (wr : Nat → Option String) (rd : Nat → Except String (List Nat))
    (k : Nat) : Except String (List Nat) :=
  match wr k with
  | some e => Except.error ("Tunnel write failed: " ++ e)
  | none =>
    match rd k with
    | Except.ok p => Except.ok p
    | Except.error e => Except.error ("Tunnel read failed: " ++ e)

/-- Whether the worker's k-th iteration completes without a tunnel error
(so the loop continues). -/
def workerStepOk (wr : Nat → Option String) (rd : Nat → Except String (List Nat))
    (k : Nat) : Bool :=
  match wr k with
  | some _ => false
  | none =>
    match rd k with
    | Except.ok _ => true
    | Except.error _ => false

theorem tunnel_worker_getElem (wr : Nat → Option String)
    (rd : Nat → Except String (List Nat)) (reqs : List TunnelWorkerRequest) (k i : Nat) :
    ((tunnel_worker wr rd reqs k).1[i]?
      = if ∀ j < i, workerStepOk wr rd (k + j) = true
        then (reqs[i]?).map fun req => (req.chan, workerOutcome wr rd (k + i))
        else none) ∧
    ((tunnel_worker wr rd reqs k).2[i]?
      = if (∀ j < i, workerStepOk wr rd (k + j) = true) ∧ wr (k + i) = none
        then (reqs[i]?).map TunnelWorkerRequest.payload
        else none) := by
  induction reqs generalizing k i with
  | nil => simp [tunnel_worker]
  | cons req rest ih =>
    cases hwk : wr k with
    | some e =>
      have hstep : workerStepOk wr rd k = false := by simp [workerStepOk, hwk]
      cases i with
      | zero =>
        simp [tunnel_worker, hwk, workerOutcome]
      | succ j =>
        have hcond : ¬ ∀ j2 < j + 1, workerStepOk wr rd (k + j2) = true := by
          intro hall
          have := hall 0 (by omega)
          simp [hstep] at this
        simp [tunnel_worker, hwk, hcond]
    | none =>
      cases hrk : rd k with
      | error e =>
        have hstep : workerStepOk wr rd k = false := by simp [workerStepOk, hwk, hrk]
        cases i with
        | zero =>
          simp [tunnel_worker, hwk, hrk, workerOutcome]
        | succ j =>
          have hcond : ¬ ∀ j2 < j + 1, workerStepOk wr rd (k + j2) = true := by
            intro hall
            have := hall 0 (by omega)
            simp [hstep] at this
          simp [tunnel_worker, hwk, hrk, hcond]
      | ok p =>
        have hstep : workerStepOk wr rd k = true := by simp [workerStepOk, hwk, hrk]
        cases i with
        | zero =>
          simp [tunnel_worker, hwk, hrk, workerOutcome]
        | succ j =>
          have hcond : (∀ j2 < j + 1, workerStepOk wr rd (k + j2) = true)
              ↔ (∀ j2 < j, workerStepOk wr rd (k + 1 + j2) = true) := by
            constructor
            · intro h j2 hj2
              have e1 : k + 1 + j2 = k + (j2 + 1) := by omega
              rw [e1]
              exact h (j2 + 1) (by omega)
            · intro h j2 hj2
              cases j2 with
              | zero => simpa using hstep
              | succ m =>
                have e1 : k + (m + 1) = k + 1 + m := by omega
                rw [e1]
                exact h m (by omega)
          have e2 : k + (j + 1) = k + 1 + j := by omega
          have ihj := ih (k + 1) j
          simp only [tunnel_worker, hwk, hrk, List.getElem?_cons_succ, hcond, e2]
          exact ⟨ihj.1, ihj.2⟩

/-- C2: for every mailbox sequence and every behaviour of the tunnel I/O,
the worker serves requests strictly one at a time in submission order:
the i-th delivery goes to the i-th request's reply channel and carries the
i-th read frame (`workerOutcome`), the i-th written frame is the i-th
request's payload, and a write or read error is delivered to the current
request's reply channel after which the loop exits (no later delivery). -/
theorem tunnel_worker_fifo (wr : Nat → Option String)
    (rd : Nat → Except String (List Nat)) (reqs : List TunnelWorkerRequest) :
    (∀ i, (tunnel_worker wr rd reqs 0).1[i]?
        = if ∀ j < i, workerStepOk wr rd j = true
          then (reqs[i]?).map fun req => (req.chan, workerOutcome wr rd i)
          else none) ∧
    (∀ i, (tunnel_worker wr rd reqs 0).2[i]?
        = if (∀ j < i, workerStepOk wr rd j = true) ∧ wr i = none
          then (reqs[i]?).map TunnelWorkerRequest.payload
          else none) ∧
    (∀ i req, (∀ j < i, workerStepOk wr rd j = true) → reqs[i]? = some req →
      workerStepOk wr rd i = false →
      (tunnel_worker wr rd reqs 0).1[i]? = some (req.chan, workerOutcome wr rd i) ∧
      (tunnel_worker wr rd reqs 0).1[i + 1]? = none) := by
  have base : ∀ i, _ ∧ _ := fun i => tunnel_worker_getElem wr rd reqs 0 i
  refine ⟨?_, ?_, ?_⟩
  · intro i
    have := (base i).1
    simpa using this
  · intro i
    have := (base i).2
    simpa using this
  · intro i req hok hreq herr
    constructor
    · have := (base i).1
      simp only [Nat.zero_add] at this
      rw [this, if_pos hok, hreq]
      rfl
    · have := (base (i + 1)).1
      simp only [Nat.zero_add] at this
      rw [this, if_neg]
      intro hall
      have := hall i (by omega)
      rw [herr] at this
      exact Bool.false_ne_true this

/-- Witness for C2 at a concrete run: three queued requests, the second
write fails, so the worker delivers the first response, delivers the write
error to the second request's channel, and exits without serving the
third. -/
theorem tunnel_worker_fifo_witness :
    (tunnel_worker (fun k => if k = 1 then some "broken pipe" else none)
        (fun _ => Except.ok [42])
        [TunnelWorkerRequest.mk [1] 10, TunnelWorkerRequest.mk [2] 11,
         TunnelWorkerRequest.mk [3] 12] 0).1[1]?
      = some (11, workerOutcome (fun k => if k = 1 then some "broken pipe" else none)
          (fun _ => Except.ok [42]) 1) ∧
    (tunnel_worker (fun k => if k = 1 then some "broken pipe" else none)
        (fun _ => Except.ok [42])
        [TunnelWorkerRequest.mk [1] 10, TunnelWorkerRequest.mk [2] 11,
         TunnelWorkerRequest.mk [3] 12] 0).1[2]? = none :=
  (tunnel_worker_fifo (fun k => if k = 1 then some "broken pipe" else none)
      (fun _ => Except.ok [42])
      [TunnelWorkerRequest.mk [1] 10, TunnelWorkerRequest.mk [2] 11,
       TunnelWorkerRequest.mk [3] 12]).2.2 1 (TunnelWorkerRequest.mk [2] 11)
    (by decide) (by decide) (by decide)

/-! ## tunnel-server: the client registry and its identity-guarded cleanup -/

/-- A handle to a tunnel connection, `Arc<TunnelConnection>`: `id` models
the Arc's allocation identity (what `Arc::ptr_eq` compares), `chanValue`
the contained `request_tx` value.  Distinct Arcs may carry equal values;
`Arc::ptr_eq` never looks at the value. -/
structure ConnHandle where
  id : Nat
  chanValue : Nat
deriving DecidableEq

/-- `Arc::ptr_eq` on handles. -/
def ptrEq (a b : ConnHandle) : Bool :=
  a.id == b.id

/-- The cleanup pattern used at all three sites (server main.rs 181-187,
256-264, 274-282): `if let Some(current) = &*active`, then only if
`Arc::ptr_eq(current, &h)` clear the slot. -/
def clear_if_current (active : Option ConnHandle) (h : ConnHandle) : Option ConnHandle :=
  match active with
  | some current => if ptrEq current h then none else some current
  | none => none

/-- The cleanup in `http_handler`'s tunnel-error arm (server main.rs
lines 256-264). -/
def http_handler_error_cleanup (active : Option ConnHandle) (h : ConnHandle) :
    Option ConnHandle :=
  clear_if_current active h

/-- The cleanup in `http_handler`'s timeout arm (server main.rs lines
274-282). -/
def http_handler_timeout_cleanup (active : Option ConnHandle) (h : ConnHandle) :
    Option ConnHandle :=
  clear_if_current active h

/-- The cleanup after `tunnel_worker` returns in `tunnel_upgrade_handler`
(server main.rs lines 181-187). -/
def worker_exit_cleanup (active : Option ConnHandle) (h : ConnHandle) :
    Option ConnHandle :=
  clear_if_current active h

/-- C5: the three cleanup sites run the same guarded clear; a slot holding
`cur` is cleared by a cleanup using handle `h` iff the two are identical by
pointer identity (`id`), so a stale cleanup never evicts a newer
connection, even one whose contained value happens to be equal. -/
theorem registry_cleanup_identity :
    (∀ active h, http_handler_error_cleanup active h = clear_if_current active h
      ∧ http_handler_timeout_cleanup active h = clear_if_current active h
      ∧ worker_exit_cleanup active h = clear_if_current active h) ∧
    (∀ cur h, clear_if_current (some cur) h = none ↔ cur.id = h.id) ∧
    (∀ cur h, cur.id ≠ h.id → clear_if_current (some cur) h = some cur) ∧
    (∀ cur h, cur.chanValue = h.chanValue → cur.id ≠ h.id →
      clear_if_current (some cur) h = some cur) := by
  have hmain : ∀ cur h : ConnHandle, cur.id ≠ h.id → clear_if_current (some cur) h = some cur := by
    intro cur h hne
    simp [clear_if_current, ptrEq, hne]
  refine ⟨fun _ _ => ⟨rfl, rfl, rfl⟩, ?_, hmain, fun cur h _ hne => hmain cur h hne⟩
  intro cur h
  constructor
  · intro hcl
    by_contra hne
    rw [hmain cur h hne] at hcl
    exact Option.noConfusion hcl
  · intro hid
    simp [clear_if_current, ptrEq, hid]

/-- Witness for C5: a stale handle with an equal contained value but a
different identity does not clear the slot; the identical handle does. -/
theorem registry_cleanup_identity_witness :
    clear_if_current (some (ConnHandle.mk 0 5)) (ConnHandle.mk 1 5)
      = some (ConnHandle.mk 0 5) ∧
    (clear_if_current (some (ConnHandle.mk 0 5)) (ConnHandle.mk 0 7) = none
      ↔ (ConnHandle.mk 0 5).id = (ConnHandle.mk 0 7).id) :=
  ⟨registry_cleanup_identity.2.2.2 (ConnHandle.mk 0 5) (ConnHandle.mk 1 5) rfl (by decide),
   registry_cleanup_identity.2.1 (ConnHandle.mk 0 5) (ConnHandle.mk 0 7)⟩

/-! ## tunnel-server: the ingress timeout arm of `http_handler` -/

/-- The server state visible around `http_handler`'s timeout arm: the
registry slot, and — to state what the arm does NOT touch — whether the
upgraded socket is open and whether any exit signal was sent to the
worker.  The arm's code (server main.rs lines 271-288) only locks the
registry, conditionally clears the slot under `Arc::ptr_eq`, and builds
the 504 response; it contains no operation on the socket or the worker
task. -/
structure ServerSnapshot where
  active : Option ConnHandle
  socketOpen : Bool
  workerExitSignaled : Bool
deriving DecidableEq

/-- An error reply built by `http_handler`. -/
structure HttpErrorReply where
  status : Nat
  body : String
deriving DecidableEq

/-- The timeout arm of `http_handler` (server main.rs lines 271-288). -/
def http_handler_timeout_arm (st : ServerSnapshot) (client : ConnHandle) :
    ServerSnapshot × HttpErrorReply :=
  (ServerSnapshot.mk (http_handler_timeout_cleanup st.active client)
      st.socketOpen st.workerExitSignaled,
   HttpErrorReply.mk 504 "Tunnel request timeout")

/-- Counterexample to C1 as stated: at a concrete state whose slot holds
the very handle the timed-out request used, the timeout arm does respond
504 and clears the registry slot, but it neither closes the socket nor
flags the worker to exit — the tunnel itself is not invalidated. -/
theorem timeout_no_tunnel_invalidation :
    (http_handler_timeout_arm
        (ServerSnapshot.mk (some (ConnHandle.mk 0 0)) true false)
        (ConnHandle.mk 0 0)).2.status = 504 ∧
    (http_handler_timeout_arm
        (ServerSnapshot.mk (some (ConnHandle.mk 0 0)) true false)
        (ConnHandle.mk 0 0)).1.active = none ∧
    (http_handler_timeout_arm
        (ServerSnapshot.mk (some (ConnHandle.mk 0 0)) true false)
        (ConnHandle.mk 0 0)).1.socketOpen = true ∧
    (http_handler_timeout_arm
        (ServerSnapshot.mk (some (ConnHandle.mk 0 0)) true false)
        (ConnHandle.mk 0 0)).1.workerExitSignaled = false := by
  decide

/-- C1 (amended): on timeout the server responds 504 Gateway Timeout with
body "Tunnel request timeout" and clears the registry slot exactly when
the installed handle is identical to the one this request used, leaving
socket and worker untouched; a late response frame nevertheless cannot be
matched to a later request's waiter, because the worker delivers the i-th
frame it reads to the i-th mailbox request's own reply channel. -/
theorem timeout_reply_and_no_skew (st : ServerSnapshot) (client : ConnHandle) :
    (http_handler_timeout_arm st client).2 = HttpErrorReply.mk 504 "Tunnel request timeout" ∧
    (http_handler_timeout_arm st client).1.active = clear_if_current st.active client ∧
    (http_handler_timeout_arm st client).1.socketOpen = st.socketOpen ∧
    (http_handler_timeout_arm st client).1.workerExitSignaled = st.workerExitSignaled ∧
    (∀ (wr : Nat → Option String) (rd : Nat → Except String (List Nat))
        (reqs : List TunnelWorkerRequest) (i : Nat) (req : TunnelWorkerRequest)
        (d : Nat × Except String (List Nat)),
      reqs[i]? = some req → (tunnel_worker wr rd reqs 0).1[i]? = some d →
      d.1 = req.chan) := by
  refine ⟨rfl, rfl, rfl, rfl, ?_⟩
  intro wr rd reqs i req d hreq hd
  have hchar := (tunnel_worker_getElem wr rd reqs 0 i).1
  simp only [Nat.zero_add] at hchar
  rw [hchar] at hd
  by_cases hc : ∀ j < i, workerStepOk wr rd j = true
  · rw [if_pos hc, hreq] at hd
    simp only [Option.map_some', Option.some.injEq] at hd
    rw [← hd]
  · rw [if_neg hc] at hd
    exact Option.noConfusion hd

/-- Witness for C1 at concrete inputs: the timeout arm on a matching
handle, and a one-request worker run whose delivery goes to that request's
own channel. -/
theorem timeout_reply_and_no_skew_witness :
    (http_handler_timeout_arm
        (ServerSnapshot.mk (some (ConnHandle.mk 3 4)) true false)
        (ConnHandle.mk 3 4)).2 = HttpErrorReply.mk 504 "Tunnel request timeout" ∧
    ((10, Except.ok [7]) : Nat × Except String (List Nat)).1
      = (TunnelWorkerRequest.mk [1] 10).chan :=
  ⟨(timeout_reply_and_no_skew
        (ServerSnapshot.mk (some (ConnHandle.mk 3 4)) true false) (ConnHandle.mk 3 4)).1,
   (timeout_reply_and_no_skew
        (ServerSnapshot.mk (some (ConnHandle.mk 3 4)) true false) (ConnHandle.mk 3 4)).2.2.2.2
      (fun _ => none) (fun _ => Except.ok [7]) [TunnelWorkerRequest.mk [1] 10] 0
      (TunnelWorkerRequest.mk [1] 10) ((10, Except.ok [7]) : Nat × Except String (List Nat))
      rfl rfl⟩

/-! ## tunnel-client: the reconnect loop's exponential backoff -/

/-- The starting backoff of the agent's reconnect loop (client main.rs
line 141): one second. -/
def initialBackoffSecs : Nat := 1

/-- The backoff cap (client main.rs line 142): thirty seconds. -/
def maxBackoffSecs : Nat := 30

/-- One pass of the reconnect loop (client main.rs lines 144-166), in
seconds.  If `connected` is true the attempt entered the running session
— a successful 101, before the first frame — and the backoff is reset to
1 there (line 150); the session then runs to disconnection.  In either
case the loop then sleeps the current backoff and doubles it, capped at
30.  Returns (duration slept on this pass, backoff after the pass). -/
def backoffPass (b : Nat) (connected : Bool) : Nat × Nat :=
  let b1 := if connected then 1 else b
  (b1, min (b1 * 2) maxBackoffSecs)

/-- The durations slept by successive passes of the reconnect loop, one
entry per pass, given each pass's connection outcome. -/
def backoffRun : Nat → List Bool → List Nat
  | _, [] => []
  | b, c :: rest => (backoffPass b c).1 :: backoffRun (backoffPass b c).2 rest

/-- C7: the reconnect backoff starts at 1 s, doubles on every pass through
the backoff wait, is capped at 30 s, and is reset to 1 s as soon as an
attempt enters the running state (so the wait after a session is 1 s and
the next backoff is 2 s); a run of failures from the start sleeps
1, 2, 4, 8, 16, 30, 30, and a success mid-run restarts the ladder. -/
theorem reconnect_backoff_policy :
    initialBackoffSecs = 1 ∧
    (∀ b, backoffPass b false = (b, min (b * 2) 30)) ∧
    (∀ b, backoffPass b true = (1, 2)) ∧
    (∀ b c, b ≤ 30 → (backoffPass b c).1 ≤ 30 ∧ (backoffPass b c).2 ≤ 30) ∧
    backoffRun initialBackoffSecs [false, false, false, false, false, false, false]
      = [1, 2, 4, 8, 16, 30, 30] ∧
    backoffRun initialBackoffSecs [false, false, true, false, false] = [1, 2, 1, 2, 4] := by
  refine ⟨rfl, fun b => rfl, fun b => rfl, ?_, by decide, by decide⟩
  intro b c hb
  cases c
  · simp [backoffPass, maxBackoffSecs]
    omega
  · simp [backoffPass, maxBackoffSecs]

/-- Witness for C7: the cap conjunct applied at the concrete backoff 30 on
a failing pass. -/
theorem reconnect_backoff_policy_witness :
    (backoffPass 30 false).1 ≤ 30 ∧ (backoffPass 30 false).2 ≤ 30 :=
  reconnect_backoff_policy.2.2.2.1 30 false (by decide)

/-! ## tunnel-client: the HTTP Upgrade handshake (`send_upgrade_request`) -/

/-- Decidable equality for `Except` (used only to `decide` concrete
evaluations in witnesses). -/
instance instDecEqExcept {ε α : Type} [DecidableEq ε] [DecidableEq α] :
    DecidableEq (Except ε α) := fun x y =>
  match x, y with
  | Except.error a, Except.error b =>
    if h : a = b then isTrue (by rw [h]) else isFalse (fun hc => h (by injection hc))
  | Except.ok a, Except.ok b =>
    if h : a = b then isTrue (by rw [h]) else isFalse (fun hc => h (by injection hc))
  | Except.error _, Except.ok _ => isFalse (fun hc => Except.noConfusion hc)
  | Except.ok _, Except.error _ => isFalse (fun hc => Except.noConfusion hc)

/-- Whether `pat` occurs contiguously inside `l`
(`windows(n).position(..)` on byte slices, `str::contains` on strings). -/
def containsSlice {α : Type} [BEq α] (pat : List α) : List α → Bool
  | [] => pat.isEmpty
  | a :: t => pat.isPrefixOf (a :: t) || containsSlice pat t

/-- The `\r\n\r\n` header terminator as bytes. -/
def crlfcrlf : List Nat := [13, 10, 13, 10]

/-- The header-read loop of `send_upgrade_request` (client main.rs lines
273-302).  The network is a queue of pending chunks: each `read` call
returns the next chunk truncated to the free space of the fixed 1024-byte
`response_buffer` (any remainder stays pending); an empty chunk or an
exhausted queue is a 0-byte read, i.e. a closed connection.  The loop
accumulates into the buffer until it contains `\r\n\r\n` anywhere
(success: return the buffer and the still-pending chunks, which are all
the caller will see of the stream afterwards), errors when the buffer
fills up without a terminator.  `fuel` bounds the iterations; every
iteration adds at least one byte to a buffer capped at 1024 bytes, so the
initial fuel of 1025 used below can never run out. -/
def upgradeReadLoop : Nat → List (List Nat) → List Nat →
    Except String (List Nat × List (List Nat))
  | 0, _, _ => Except.error "unreachable: more iterations than buffer bytes"
  | fuel + 1, chunks, buf =>
    match chunks with
    | [] => Except.error "Connection closed before receiving upgrade response"
    | c :: rest =>
      let n := min c.length (1024 - buf.length)
      if n = 0 then Except.error "Connection closed before receiving upgrade response"
      else
        let buf2 := buf ++ c.take n
        let rest2 := if n < c.length then c.drop n :: rest else rest
        if 4 ≤ buf2.length ∧ containsSlice crlfcrlf buf2 = true then Except.ok (buf2, rest2)
        else if 1024 ≤ buf2.length then Except.error "Response headers too large"
        else upgradeReadLoop fuel rest2 buf2

/-- `String::from_utf8_lossy`, modelled for ASCII data: a byte below 128
is its own character, any other byte becomes U+FFFD.  (Real lossy decoding
also merges valid multi-byte sequences; every theorem below only
instantiates ASCII buffers, where the two agree.) -/
def fromUtf8Lossy (bs : List Nat) : List Char :=
  bs.map fun b => if b < 128 then Char.ofNat b else Char.ofNat 65533

/-- Strip one trailing carriage return (what `str::lines` does to each
line). -/
def stripTrailingCR (cs : List Char) : List Char :=
  if cs.getLast? = some '\r' then cs.dropLast else cs

/-- `response_str.lines().next()` (client main.rs line 306): the text
before the first LF with one trailing CR stripped; `none` on the empty
string. -/
def firstLine (cs : List Char) : Option (List Char) :=
  match cs with
  | [] => none
  | _ => some (stripTrailingCR (cs.takeWhile fun c => c != '\n'))

/-- ASCII lowercasing of one character (`str::to_lowercase` restricted to
ASCII, which covers every pattern the code searches for). -/
def lowerAscii (c : Char) : Char :=
  if 'A' ≤ c ∧ c ≤ 'Z' then Char.ofNat (c.toNat + 32) else c

/-- Outcome of validating the upgrade response. -/
inductive UpgradeCheck where
  | emptyResponse
  | authFailed
  | upgradeRejected (line : List Char)
  | missingHeaders
  | ok
deriving DecidableEq

/-- The two status-line checks of `send_upgrade_request` (client main.rs
lines 309-317), in source order: the `"401"` check runs first and returns
"Authentication failed: Invalid credentials"; only then is the line
required to contain `"101"`, else "Upgrade failed: {first_line}". -/
def checkStatusLine (line : List Char) : Option UpgradeCheck :=
  if containsSlice ("401".data) line then some UpgradeCheck.authFailed
  else if !containsSlice ("101".data) line then some (UpgradeCheck.upgradeRejected line)
  else none

/-- Modelled from the claim's stated order (NOT from the source), for
comparison: first require `"101"` (else upgrade-rejected), then check
`"401"`. -/
def checkStatusLineSpecOrder (line : List Char) : Option UpgradeCheck :=
  if !containsSlice ("101".data) line then some (UpgradeCheck.upgradeRejected line)
  else if containsSlice ("401".data) line then some UpgradeCheck.authFailed
  else none

/-- The full response validation of `send_upgrade_request` (client main.rs
lines 304-325): lossy-decode the buffer, take the first line ("Empty
response" if there is none), run the status-line checks, then require
`upgrade: tunnel` and `connection: upgrade` somewhere in the lowercased
response text. -/
def validateUpgradeResponse (buf : List Nat) : UpgradeCheck :=
  let s := fromUtf8Lossy buf
  match firstLine s with
  | none => UpgradeCheck.emptyResponse
  | some line =>
    match checkStatusLine line with
    | some failure => failure
    | none =>
      let lower := s.map lowerAscii
      if containsSlice ("upgrade: tunnel".data) lower
          && containsSlice ("connection: upgrade".data) lower
      then UpgradeCheck.ok
      else UpgradeCheck.missingHeaders

/-- `send_upgrade_request` from the read loop on (client main.rs lines
273-328), composed with what `connect_and_upgrade` hands to
`handle_tunnel_connection`: on success the function returns `Ok(())` and
the caller keeps only the raw stream, whose unread content is exactly the
chunks the header loop left pending — the bytes over-read into
`response_buffer` beyond the `\r\n\r\n` terminator are not handed back. -/
def send_upgrade_request (chunks : List (List Nat)) : Except String (List (List Nat)) :=
  match upgradeReadLoop 1025 chunks [] with
  | Except.error e => Except.error e
  | Except.ok (buf, rest) =>
    match validateUpgradeResponse buf with
    | UpgradeCheck.ok => Except.ok rest
    | UpgradeCheck.emptyResponse => Except.error "Empty response"
    | UpgradeCheck.authFailed => Except.error "Authentication failed: Invalid credentials"
    | UpgradeCheck.upgradeRejected line => Except.error ("Upgrade failed: " ++ String.mk line)
    | UpgradeCheck.missingHeaders =>
      Except.error "Missing required upgrade headers in response"

/-- A well-formed 101 upgrade response as bytes. -/
def upgradeResponseBytes : List Nat :=
  strBytes "HTTP/1.1 101 Switching Protocols\r\nupgrade: tunnel\r\nconnection: upgrade\r\n\r\n"

/-- C3 (what the code actually does at the failing input): when the
server's 101 response and the first tunnel frame (here the frame
`[0,0,0,1,65]`, payload "A") arrive in one read, the handshake succeeds
but the pending stream handed to the framing reader is empty — the frame
bytes beyond `\r\n\r\n` were consumed into the handshake buffer and
dropped, so the first `read_frame` fails instead of yielding the frame. -/
theorem upgrade_overread_drops_tunnel_bytes :
    send_upgrade_request [upgradeResponseBytes ++ [0, 0, 0, 1, 65]] = Except.ok [] ∧
    upgradeReadLoop 1025 [upgradeResponseBytes ++ [0, 0, 0, 1, 65]] []
      = Except.ok (upgradeResponseBytes ++ [0, 0, 0, 1, 65], []) ∧
    read_frame [] = none := by
  exact ⟨rfl, rfl, rfl⟩

/-- Counterexample to C4 as stated: on the first line
`HTTP/1.1 401 Unauthorized` the source's checks yield the
authentication-failed error, but the claim's stated order (101 first)
would yield the upgrade-rejected error, contradicting both the code and
the claim's own conclusion that a 401 is classified as an authentication
failure. -/
theorem upgrade_check_order_counterexample :
    checkStatusLine ("HTTP/1.1 401 Unauthorized".data) = some UpgradeCheck.authFailed ∧
    checkStatusLineSpecOrder ("HTTP/1.1 401 Unauthorized".data)
      = some (UpgradeCheck.upgradeRejected ("HTTP/1.1 401 Unauthorized".data)) ∧
    checkStatusLineSpecOrder ("HTTP/1.1 401 Unauthorized".data)
      ≠ checkStatusLine ("HTTP/1.1 401 Unauthorized".data) := by
  exact ⟨by decide, by decide, by decide⟩

/-- C4 (amended): the status-line checks apply in the order `"401"` first,
then `"101"`: a line containing "401" always fails with the
authentication-failed error (so a server 401 rejection is classified as an
authentication failure); a line with neither "401" nor "101" fails with
the upgrade-rejected error carrying that first line; a line with "101" and
without "401" passes. -/
theorem upgrade_status_check_order (line : List Char) :
    (containsSlice ("401".data) line = true →
      checkStatusLine line = some UpgradeCheck.authFailed) ∧
    (containsSlice ("401".data) line = false → containsSlice ("101".data) line = false →
      checkStatusLine line = some (UpgradeCheck.upgradeRejected line)) ∧
    (containsSlice ("401".data) line = false → containsSlice ("101".data) line = true →
      checkStatusLine line = none) := by
  refine ⟨?_, ?_, ?_⟩
  · intro h4
    simp [checkStatusLine, h4]
  · intro h4 h1
    simp [checkStatusLine, h4, h1]
  · intro h4 h1
    simp [checkStatusLine, h4, h1]

/-- Witness for C4 on concrete status lines: a 401 line is classified as
an authentication failure, a 500 line as upgrade-rejected, and a 101 line
passes. -/
theorem upgrade_status_check_order_witness :
    checkStatusLine ("HTTP/1.1 401 Unauthorized".data) = some UpgradeCheck.authFailed ∧
    checkStatusLine ("HTTP/1.1 500 Internal Server Error".data)
      = some (UpgradeCheck.upgradeRejected ("HTTP/1.1 500 Internal Server Error".data)) ∧
    checkStatusLine ("HTTP/1.1 101 Switching Protocols".data) = none :=
  ⟨(upgrade_status_check_order ("HTTP/1.1 401 Unauthorized".data)).1 (by decide),
   (upgrade_status_check_order ("HTTP/1.1 500 Internal Server Error".data)).2.1
      (by decide) (by decide),
   (upgrade_status_check_order ("HTTP/1.1 101 Switching Protocols".data)).2.2
      (by decide) (by decide)⟩

end Speedforce
